import Mathlib

/-!
Verification development for the session-scoped conversation concurrency
coordinator and the proximity ranking function of the Pran-Protocol frontend
(file frontend/src/components/VoiceRecorder.tsx).

Modelling conventions, fixed once for the whole file:

* The component is a React function component.  Reads of `useState` values
  inside an async handler observe the render-time value captured by the
  closure of that handler; they do not observe later `set...` calls.  Such
  closure-captured values are passed as explicit `...Closure` records.
  Calls to `set...` and mutations of `useRef` cells act on the shared,
  up-to-date component state, which is the explicit `CoordState` record
  threaded through every transition.  Functional updates such as
  `setMessages(prev => ...)` therefore read the shared state, while plain
  reads such as `currentSessionId` read the closure.
* Each `await` in a handler is a suspension point; a handler is split into
  one Lean function per maximal synchronous block, so that interleavings
  of other handlers can be expressed as function composition.
* JavaScript truthiness is modelled explicitly: `null`/`undefined` and the
  empty string are falsy (`truthyS`), the number 0 is falsy (`sortKey`).
* An `AbortController` is identified by a numeric token.  Aborting adds the
  token to the `aborted` set; a fetch issued with an aborted token rejects,
  so its continuation takes the `AbortError` path.
-/

namespace Pran

/-- JavaScript truthiness of a nullable string: `null`, `undefined` and the
empty string are falsy. -/
def truthyS : Option String → Bool
  | none => false
  | some s => if s = "" then false else true

/-- JavaScript `a || b` on nullable strings. -/
def orFalsy (a b : Option String) : Option String :=
  if truthyS a then a else b

/-- Membership in a JavaScript `Set`, modelled as a duplicate-free list. -/
def setMem {α : Type} [DecidableEq α] (s : List α) (k : α) : Bool :=
  s.contains k

/-- JavaScript `Set.add`. -/
def setAdd {α : Type} [DecidableEq α] (s : List α) (k : α) : List α :=
  if k ∈ s then s else s ++ [k]

/-- JavaScript `Set.delete`. -/
def setDelete {α : Type} [DecidableEq α] (s : List α) (k : α) : List α :=
  s.filter (fun x => x ≠ k)

/-- JavaScript `Map.get`, on a map modelled as an association list. -/
def mapGet {α β : Type} [DecidableEq α] (m : List (α × β)) (k : α) : Option β :=
  match m with
  | [] => none
  | (k1, v1) :: rest => if k1 = k then some v1 else mapGet rest k

/-- JavaScript `Map.set`: overwrite-or-insert. -/
def mapSet {α β : Type} [DecidableEq α] (m : List (α × β)) (k : α) (v : β) :
    List (α × β) :=
  match m with
  | [] => [(k, v)]
  | (k1, v1) :: rest => if k1 = k then (k, v) :: rest else (k1, v1) :: mapSet rest k v

/-- JavaScript `Map.delete`. -/
def mapDelete {α β : Type} [DecidableEq α] (m : List (α × β)) (k : α) :
    List (α × β) :=
  m.filter (fun p => p.1 ≠ k)

/-- One chat message; `rawContent` is the plain-text payload (the rendered
`content` is an external rendering concern).  The greeting message built by
`createNewSession` carries no `rawContent` field, hence the `Option`. -/
structure Msg where
  role : String
  rawContent : Option String
  deriving Repr, DecidableEq

/-- The shared mutable component state: `useState` cells (as last set) and
`useRef` cells of VoiceRecorder.  `aborted` is the set of token identities
whose AbortController has fired. -/
structure CoordState where
  messages : List Msg
  currentSessionId : Option String
  pendingRequests : List String
  activeRequests : List (String × Nat)
  sessionMessages : List (Option String × List Msg)
  isLoading : Bool
  showPendingWarning : Bool
  sessionLoadAbort : Option Nat
  isLoadingSession : Bool
  aborted : List Nat
  deriving Repr, DecidableEq

/-- The pristine component state (lines 537-579: empty message list, no
active session, no pending bookkeeping). -/
def initialState : CoordState :=
  { messages := []
    currentSessionId := none
    pendingRequests := []
    activeRequests := []
    sessionMessages := []
    isLoading := false
    showPendingWarning := false
    sessionLoadAbort := none
    isLoadingSession := false
    aborted := [] }

/-- Line 851: the request key is the session id, with the sentinel string
"new" when the session id is falsy (`requestSessionId || "new"` up to the
JavaScript quoting). -/
def requestKeyOf (sid : Option String) : String :=
  match sid with
  | none => "new"
  | some s => if s = "" then "new" else s

/-- Render-time values captured by the closure of one `handleSubmit` call. -/
structure SendClosure where
  currentSessionId : Option String
  isLoading : Bool
  deriving Repr, DecidableEq

/-- Lines 838-856 of `handleSubmit`: the synchronous block before the first
`await`.  Returns `none` when the guard on line 839 returns early (no state
change).  Otherwise: append the user message, set the loading flag, clear
the pending warning, store the fresh token in the ActiveRequestRegistry and
add the RequestKey to the PendingRequestSet. -/
def beginSend (cl : SendClosure) (textToSend : String) (tok : Nat)
    (s : CoordState) : Option CoordState :=
  if textToSend = "" ∨ cl.isLoading then none
  else
    some { s with
      messages := s.messages ++ [{ role := "user", rawContent := some textToSend }]
      isLoading := true
      showPendingWarning := false
      activeRequests := mapSet s.activeRequests (requestKeyOf cl.currentSessionId) tok
      pendingRequests := setAdd s.pendingRequests (requestKeyOf cl.currentSessionId) }

/-- The message appended on authentication failure (lines 860-864). -/
def sessionExpiredMsg : Msg :=
  { role := "assistant", rawContent := some "Session expired." }

/-- Lines 858-867 of `handleSubmit` when `getValidToken()` yields no valid
credential: append the session-expired message, clear the loading flag and
return.  The early return on line 866 precedes the `try` block, so the
`finally` cleanup of lines 1000-1013 never runs on this path. -/
def authFailSend (s : CoordState) : CoordState :=
  { s with
    messages := s.messages ++ [sessionExpiredMsg]
    isLoading := false }

/-- The resolved value of the backend send call (lines 927-939): the
optional session id assigned by the backend and the answer text. -/
structure SendResponse where
  session_id : Option String
  output : String
  deriving Repr, DecidableEq

/-- Lines 938-962 of `handleSubmit`: the continuation after the backend call
resolves.  `requestSessionId` is the closure value captured on line 850;
every later read of `currentSessionId` in this handler observes the same
closure value.  Line 939 computes the final session id; lines 942-945 move
the active-session pointer when the backend assigned an id to a previously
unsaved send; line 955 decides routing; line 956 appends to the live view;
lines 959-960 append into the SessionCache entry of the final session. -/
def resolveSend (cl : SendClosure) (data : SendResponse) (s : CoordState) :
    CoordState :=
  let requestSessionId := cl.currentSessionId
  let finalSessionId := orFalsy data.session_id requestSessionId
  let s1 :=
    if truthyS data.session_id ∧ ¬ truthyS requestSessionId then
      { s with currentSessionId := data.session_id }
    else s
  let assistantMessage : Msg := { role := "assistant", rawContent := some data.output }
  if cl.currentSessionId = finalSessionId ∨
      (¬ truthyS cl.currentSessionId ∧ ¬ truthyS requestSessionId) then
    { s1 with messages := s1.messages ++ [assistantMessage] }
  else
    let cached := (mapGet s1.sessionMessages finalSessionId).getD []
    { s1 with
      sessionMessages := mapSet s1.sessionMessages finalSessionId
        (cached ++ [assistantMessage]) }

/-- The error message appended on a non-abort failure (lines 993-997). -/
def errorMsg : Msg :=
  { role := "assistant", rawContent := some "Error occurred." }

/-- Lines 989-999 of `handleSubmit`: the catch block for a non-abort
failure.  The error message is appended only under the same-session check of
line 992 (which reads the closure values).  An `AbortError` changes nothing
here. -/
def failSend (cl : SendClosure) (s : CoordState) : CoordState :=
  let requestSessionId := cl.currentSessionId
  if cl.currentSessionId = requestSessionId ∨
      (¬ truthyS cl.currentSessionId ∧ ¬ truthyS requestSessionId) then
    { s with messages := s.messages ++ [errorMsg] }
  else s

/-- Lines 1000-1013 of `handleSubmit`: the `finally` block.  Line 1002
deletes the registry entry for `requestKey` unconditionally; lines
1003-1007 delete the key from the PendingRequestSet; lines 1010-1012 clear
the loading flag under the same-session check (closure reads). -/
def finalizeSend (cl : SendClosure) (s : CoordState) : CoordState :=
  let requestSessionId := cl.currentSessionId
  let requestKey := requestKeyOf cl.currentSessionId
  let s1 :=
    { s with
      activeRequests := mapDelete s.activeRequests requestKey
      pendingRequests := setDelete s.pendingRequests requestKey }
  if cl.currentSessionId = requestSessionId ∨
      (¬ truthyS cl.currentSessionId ∧ ¬ truthyS requestSessionId) then
    { s1 with isLoading := false }
  else s1

/-- Render-time values captured by the closure of one `loadSession` or
`createNewSession` call (both read the same three state cells). -/
structure ViewClosure where
  currentSessionId : Option String
  messages : List Msg
  pendingRequests : List String
  deriving Repr, DecidableEq

/-- Lines 694-697 (and 801-803): save the outgoing transcript into the
SessionCache before switching, when a session is active — a closure read of
both the active session id and the live message list. -/
def saveOutgoing (cl : ViewClosure) (s : CoordState) : CoordState :=
  if truthyS cl.currentSessionId then
    { s with sessionMessages := mapSet s.sessionMessages cl.currentSessionId cl.messages }
  else s

/-- Lines 700-707: when a session load is in progress, fire its stored
abort token and clear the slot. -/
def abortPreviousLoad (s : CoordState) : CoordState :=
  if s.isLoadingSession then
    match s.sessionLoadAbort with
    | some t => { s with aborted := setAdd s.aborted t, sessionLoadAbort := none }
    | none => s
  else s

/-- Outcome indicator of the synchronous part of `loadSession`: the handler
returned before doing anything (no credential, line 683), hit the
same-session no-op guard (line 688), served the SessionCache entry without
any network access (lines 715-723), or stored a fresh abort token and is
about to issue the `fetchHistory` network call (lines 726-733). -/
inductive LoadStartResult where
  | noCredential
  | sameSession
  | servedFromCache
  | fetching
  deriving Repr, DecidableEq

/-- Lines 681-727 of `loadSession`: everything up to the `fetchHistory`
network call.  In order: the credential check (682-683), the same-session
guard (686-689), the write-through save of the outgoing transcript
(694-697, closure reads of `currentSessionId` and `messages`), the abort of
a still-pending previous load (700-707), the flag and pointer updates
(709-711), the cache short-circuit (714-723, which reads the closure
`pendingRequests`), and otherwise the registration of the fresh abort token
(726-727). -/
def loadSessionStart (cl : ViewClosure) (sessionId : String)
    (token : Option String) (tFresh : Nat) (s : CoordState) :
    CoordState × LoadStartResult :=
  if token = none then (s, .noCredential)
  else if cl.currentSessionId = some sessionId then (s, .sameSession)
  else
    let s2 := abortPreviousLoad (saveOutgoing cl s)
    let s3 := { s2 with isLoadingSession := true, currentSessionId := some sessionId }
    let startFetch := ({ s3 with sessionLoadAbort := some tFresh }, LoadStartResult.fetching)
    match mapGet s3.sessionMessages (some sessionId) with
    | some cachedMessages =>
      if cachedMessages.length > 0 ∧ cl.currentSessionId ≠ some sessionId then
        ({ s3 with
            messages := cachedMessages
            isLoading := setMem cl.pendingRequests sessionId
            showPendingWarning := setMem cl.pendingRequests sessionId
            isLoadingSession := false }, LoadStartResult.servedFromCache)
      else startFetch
    | none => startFetch

/-- One raw history record returned by `fetchHistory` (line 736). -/
structure RawMsg where
  role : String
  content : String
  deriving Repr, DecidableEq

/-- Line 772: a raw history record becomes a UI message whose `rawContent`
is the stored content (the rendered form is an external concern). -/
def toUiMsg (m : RawMsg) : Msg :=
  { role := m.role, rawContent := some m.content }

/-- How the `fetchHistory` network call settles when it is not aborted. -/
inductive FetchHistoryResult where
  | ok (history : List RawMsg)
  | httpError
  | netError
  deriving Repr, DecidableEq

/-- Lines 729-796 of `loadSession`: the continuation after the network call
settles, for the load that holds token `tok`.  When `tok` was aborted
before the call settled the fetch promise rejects with `AbortError`, so the
continuation only logs (lines 787-789).  On a successful response the live
view is replaced unconditionally (line 777) and the SessionCache entry is
overwritten (line 778); an HTTP error or network error only logs (lines
781-786).  The `finally` block (790-796) resets the in-progress flag and
clears the stored abort token only when it is still this own call token. -/
def loadSessionResolve (cl : ViewClosure) (sessionId : String) (tok : Nat)
    (net : FetchHistoryResult) (s : CoordState) : CoordState :=
  let s1 :=
    if setMem s.aborted tok then s
    else
      match net with
      | .ok history =>
        let uiMessages := history.map toUiMsg
        { s with
          messages := uiMessages
          sessionMessages := mapSet s.sessionMessages (some sessionId) uiMessages
          isLoading := setMem cl.pendingRequests sessionId
          showPendingWarning := setMem cl.pendingRequests sessionId }
      | .httpError => s
      | .netError => s
  let s2 := { s1 with isLoadingSession := false }
  if s2.sessionLoadAbort = some tok then { s2 with sessionLoadAbort := none } else s2

/-- The greeting message installed by `createNewSession` (lines 819-827);
it carries rendered content only, no `rawContent`. -/
def greetingMsg : Msg :=
  { role := "assistant", rawContent := none }

/-- Lines 799-830, `createNewSession`: save the outgoing transcript
(801-803), abort an ongoing session load (806-809), surface the pending
warning when requests are outstanding (812-813), reset the loading flags
(816-817), install the greeting as the live view (819-827) and make the
active session the unsaved one (828). -/
def createNewSession (cl : ViewClosure) (s : CoordState) : CoordState :=
  let s1 := saveOutgoing cl s
  let s2 :=
    match s1.sessionLoadAbort with
    | some t => { s1 with aborted := setAdd s1.aborted t, sessionLoadAbort := none }
    | none => s1
  { s2 with
    showPendingWarning := decide (cl.pendingRequests.length > 0)
    isLoading := false
    isLoadingSession := false
    messages := [greetingMsg]
    currentSessionId := none }

/-- One candidate location for the emergency locator (lines 1155-1181):
optional coordinates and an optional precomputed distance.  Absent fields
are `none`; JavaScript number semantics are modelled over the reals. -/
structure Hospital where
  latitude : Option ℝ
  longitude : Option ℝ
  distance_km : Option ℝ

/-- JavaScript `Math.atan2(y, x)` over the reals (signed zero ignored). -/
noncomputable def jsAtan2 (y x : ℝ) : ℝ :=
  if 0 < x then Real.arctan (y / x)
  else if x < 0 then
    (if 0 ≤ y then Real.arctan (y / x) + Real.pi else Real.arctan (y / x) - Real.pi)
  else if 0 < y then Real.pi / 2
  else if y < 0 then -(Real.pi / 2)
  else 0

/-- Lines 1161-1169: the haversine great-circle distance with Earth radius
6371 km, exactly as computed in `handleEmergencyLocator` (observer first,
candidate second). -/
noncomputable def haversineKm (latitude longitude hlat hlon : ℝ) : ℝ :=
  let R : ℝ := 6371
  let dLat := (hlat - latitude) * Real.pi / 180
  let dLon := (hlon - longitude) * Real.pi / 180
  let a :=
    Real.sin (dLat / 2) * Real.sin (dLat / 2) +
      Real.cos (latitude * Real.pi / 180) * Real.cos (hlat * Real.pi / 180) *
        Real.sin (dLon / 2) * Real.sin (dLon / 2)
  let c := 2 * jsAtan2 (Real.sqrt a) (Real.sqrt (1 - a))
  R * c

/-- Lines 1158-1174, the body mapped over the candidate list: the guard
`hospital.latitude && hospital.longitude` is JavaScript truthiness, so the
distance is recomputed (and overwritten) only when both coordinates are
present and nonzero; otherwise the candidate passes through unchanged. -/
noncomputable def recomputeHospital (latitude longitude : ℝ) (h : Hospital) :
    Hospital :=
  match h.latitude, h.longitude with
  | some hlat, some hlon =>
    if hlat ≠ 0 ∧ hlon ≠ 0 then
      { h with distance_km := some (haversineKm latitude longitude hlat hlon) }
    else h
  | _, _ => h

/-- Lines 1178-1179: the sort key `a.distance_km || 999999`.  JavaScript
truthiness makes an absent distance and a distance of exactly 0 both fall
back to the sentinel. -/
noncomputable def sortKey (h : Hospital) : ℝ :=
  match h.distance_km with
  | some d => if d = 0 then 999999 else d
  | none => 999999

/-- Stable insertion of a candidate into an already ranked list: the new
element goes in front of the first element whose key is not smaller, so an
earlier input element precedes later elements with an equal key. -/
noncomputable def insertByKey (h : Hospital) : List Hospital → List Hospital
  | [] => [h]
  | h1 :: rest =>
    if sortKey h ≤ sortKey h1 then h :: h1 :: rest else h1 :: insertByKey h rest

/-- Stable ascending sort by `sortKey`.  Line 1177 uses
`Array.prototype.sort` with the comparator `distA - distB`, which is a
stable ascending sort by the same key; a stable sort by a total key is
extensionally unique, so stable insertion sort is a faithful model. -/
noncomputable def sortByKey : List Hospital → List Hospital
  | [] => []
  | h :: rest => insertByKey h (sortByKey rest)

/-- Lines 1155-1181: the pure proximity ranking of `handleEmergencyLocator`
(spec operation `rank`): recompute distances where truthy coordinates
exist, then sort ascending by the possibly-sentinel key. -/
noncomputable def rank (latitude longitude : ℝ) (hospitals : List Hospital) :
    List Hospital :=
  sortByKey (hospitals.map (recomputeHospital latitude longitude))

/-- Filter of the candidates whose sort key equals `k`; used to state that
ranking keeps the relative order of equal-key candidates. -/
noncomputable def filterKeyEq (k : ℝ) (l : List Hospital) : List Hospital :=
  l.filter (fun x => sortKey x = k)

/- Concrete scenario material used by the per-claim theorems below. -/

/-- The closure of a send issued while no session is active. -/
def unsavedSendClosure : SendClosure :=
  { currentSessionId := none, isLoading := false }

/-- Claim C1 scenario, step 1: the user sends "hello" with no active
session; the send uses token 7. -/
def c1AfterBegin : CoordState :=
  (beginSend unsavedSendClosure "hello" 7 initialState).getD initialState

/-- Claim C1 scenario, step 2: while the send is pending the user clicks
new chat; the render at that moment still shows no active session. -/
def c1AfterNewChat : CoordState :=
  createNewSession
    { currentSessionId := none
      messages := c1AfterBegin.messages
      pendingRequests := c1AfterBegin.pendingRequests }
    c1AfterBegin

/-- Claim C1 scenario, step 3: the backend resolves with session id S1. -/
def c1Final : CoordState :=
  resolveSend unsavedSendClosure { session_id := some "S1", output := "hi there" }
    c1AfterNewChat

/-- The state after `beginSend` of a send of "hello" with token 7 from the
pristine state, written out explicitly. -/
def c2AfterBegin : CoordState :=
  { initialState with
    messages := [{ role := "user", rawContent := some "hello" }]
    isLoading := true
    activeRequests := [("new", 7)]
    pendingRequests := ["new"] }

/-- Claim C2 scenario: the same send then fails authentication. -/
def c2Final : CoordState := authFailSend c2AfterBegin

/-- Claim C3 scenario: a send of "hi" with token 3 begins from the pristine
state and then fails authentication. -/
def c3AfterBegin : CoordState :=
  (beginSend unsavedSendClosure "hi" 3 initialState).getD initialState

/-- Claim C3 scenario, final state of the auth-failing send. -/
def c3Final : CoordState := authFailSend c3AfterBegin

/-- Claim C4 scenario: send A (token 1) starts from an unsaved session. -/
def c4AfterA : CoordState :=
  (beginSend unsavedSendClosure "first" 1 initialState).getD initialState

/-- Claim C4 scenario: the user clicks new chat while A is pending. -/
def c4AfterNewChat : CoordState :=
  createNewSession
    { currentSessionId := none
      messages := c4AfterA.messages
      pendingRequests := c4AfterA.pendingRequests }
    c4AfterA

/-- Claim C4 scenario: send B (token 2) starts from the new unsaved chat,
storing the newer token under the same RequestKey "new". -/
def c4AfterB : CoordState :=
  (beginSend unsavedSendClosure "second" 2 c4AfterNewChat).getD c4AfterNewChat

/-- Claim C4 scenario: the older send A completes and runs its finally. -/
def c4Final : CoordState := finalizeSend unsavedSendClosure c4AfterB

/-- Claim C5 witness state: a history load with token 3 is in flight. -/
def c5State : CoordState :=
  { initialState with isLoadingSession := true, sessionLoadAbort := some 3 }

/-- Claim C6 witness: a cached transcript for session S2. -/
def c6Cached : List Msg := [{ role := "user", rawContent := some "old" }]

/-- Claim C6 witness state: the SessionCache holds a non-empty entry for
the non-active session S2. -/
def c6State : CoordState :=
  { initialState with sessionMessages := [(some "S2", c6Cached)] }

/-- Claim C7 failing input: a candidate on the equator (latitude exactly 0,
longitude 1), no caller-supplied distance. -/
noncomputable def equatorCandidate : Hospital :=
  { latitude := some 0, longitude := some 1, distance_km := none }

/-- Claim C7 failing input: a candidate on the prime meridian (latitude 1,
longitude exactly 0). -/
noncomputable def meridianCandidate : Hospital :=
  { latitude := some 1, longitude := some 0, distance_km := none }

/-- Claim C8 candidate: caller-supplied distance 5 km, no coordinates. -/
noncomputable def suppliedFive : Hospital :=
  { latitude := none, longitude := none, distance_km := some 5 }

/-- Claim C8 candidate: the empty candidate. -/
noncomputable def emptyCandidate : Hospital :=
  { latitude := none, longitude := none, distance_km := none }

/-- Claim C9 counterexample candidate: caller-supplied distance exactly 0,
no coordinates. -/
noncomputable def suppliedZero : Hospital :=
  { latitude := none, longitude := none, distance_km := some 0 }

/- Library lemmas about the JavaScript Map and Set model. -/

theorem mapGet_mapSet_self {α β : Type} [DecidableEq α] (m : List (α × β))
    (k : α) (v : β) : mapGet (mapSet m k v) k = some v := by
  induction m with
  | nil => simp [mapSet, mapGet]
  | cons p rest ih =>
    obtain ⟨k1, v1⟩ := p
    by_cases h : k1 = k
    · simp [mapSet, mapGet, h]
    · simp [mapSet, mapGet, h, ih]

theorem mapGet_mapSet_ne {α β : Type} [DecidableEq α] (m : List (α × β))
    (k k9 : α) (v : β) (hne : k ≠ k9) :
    mapGet (mapSet m k v) k9 = mapGet m k9 := by
  induction m with
  | nil => simp [mapSet, mapGet, hne]
  | cons p rest ih =>
    obtain ⟨k1, v1⟩ := p
    by_cases h : k1 = k
    · simp [mapSet, mapGet, h, hne]
    · simp [mapSet, mapGet, h, ih]

theorem mapGet_mapDelete_self {α β : Type} [DecidableEq α] (m : List (α × β))
    (k : α) : mapGet (mapDelete m k) k = none := by
  induction m with
  | nil => simp [mapDelete, mapGet]
  | cons p rest ih =>
    obtain ⟨k1, v1⟩ := p
    by_cases h : k1 = k
    · simpa [mapDelete, mapGet, h] using ih
    · simpa [mapDelete, mapGet, h] using ih

theorem mapGet_mapDelete_ne {α β : Type} [DecidableEq α] (m : List (α × β))
    (k k9 : α) (hne : k9 ≠ k) :
    mapGet (mapDelete m k) k9 = mapGet m k9 := by
  induction m with
  | nil => simp [mapDelete, mapGet]
  | cons p rest ih =>
    obtain ⟨k1, v1⟩ := p
    by_cases h : k1 = k
    · subst h
      have hd : mapDelete ((k1, v1) :: rest) k1 = mapDelete rest k1 := by
        simp [mapDelete]
      have hk : k1 ≠ k9 := fun h3 => hne h3.symm
      rw [hd, ih]
      simp [mapGet, hk]
    · have hd : mapDelete ((k1, v1) :: rest) k = (k1, v1) :: mapDelete rest k := by
        simp [mapDelete, h]
      rw [hd]
      by_cases h2 : k1 = k9
      · simp [mapGet, h2]
      · simp [mapGet, h2, ih]

theorem setMem_setAdd_self {α : Type} [DecidableEq α] (s : List α) (k : α) :
    setMem (setAdd s k) k = true := by
  by_cases h : k ∈ s
  · simp [setAdd, setMem, h]
  · simp [setAdd, setMem, h]

theorem setMem_setAdd_ne {α : Type} [DecidableEq α] (s : List α) (k k9 : α)
    (hne : k9 ≠ k) : setMem (setAdd s k) k9 = setMem s k9 := by
  by_cases h : k ∈ s
  · simp [setAdd, h]
  · simp [setAdd, setMem, h, hne]

theorem setMem_setDelete_self {α : Type} [DecidableEq α] (s : List α) (k : α) :
    setMem (setDelete s k) k = false := by
  simp [setDelete, setMem, List.mem_filter]

theorem setMem_setDelete_ne {α : Type} [DecidableEq α] (s : List α) (k k9 : α)
    (hne : k9 ≠ k) : setMem (setDelete s k) k9 = setMem s k9 := by
  simp [setDelete, setMem, List.mem_filter, hne]

/-- Inversion of a successful `beginSend`: the guard passed and the
resulting state is the recorded one. -/
theorem beginSend_eq_some {cl : SendClosure} {textToSend : String} {tok : Nat}
    {s s1 : CoordState} (h : beginSend cl textToSend tok s = some s1) :
    s1.pendingRequests = setAdd s.pendingRequests (requestKeyOf cl.currentSessionId) ∧
    s1.activeRequests = mapSet s.activeRequests (requestKeyOf cl.currentSessionId) tok ∧
    s1.messages = s.messages ++ [{ role := "user", rawContent := some textToSend }] ∧
    s1.isLoading = true := by
  rw [beginSend] at h
  split at h
  · exact Option.noConfusion h
  · injection h with h
    subst h
    exact ⟨rfl, rfl, rfl, rfl⟩

/-- Fields of the `finally` state of a send: the PendingRequestSet entry
and the registry entry for the RequestKey are removed (the same-session
check on line 1010 only guards the loading flag, and it compares the
closure value with itself, so it always takes the then branch). -/
theorem finalizeSend_fields (cl : SendClosure) (s : CoordState) :
    (finalizeSend cl s).pendingRequests =
        setDelete s.pendingRequests (requestKeyOf cl.currentSessionId) ∧
    (finalizeSend cl s).activeRequests =
        mapDelete s.activeRequests (requestKeyOf cl.currentSessionId) ∧
    (finalizeSend cl s).isLoading = false := by
  rw [finalizeSend]
  simp

/-- Claim C2, counterexample to the claim as stated: a send that fails
authentication does change the PendingRequestSet and the
ActiveRequestRegistry.  From the pristine state (both empty), a send of
"hello" with token 7 and no valid credential terminates with the key "new"
still pending and token 7 still registered, because lines 853-856 run
before the credential check on lines 858-867 and the early return skips the
finally cleanup. -/
theorem C2_counterexample :
    initialState.pendingRequests = [] ∧
    initialState.activeRequests = [] ∧
    beginSend unsavedSendClosure "hello" 7 initialState = some c2AfterBegin ∧
    c2Final.pendingRequests = ["new"] ∧
    c2Final.activeRequests = [("new", 7)] := by
  refine ⟨rfl, rfl, ?_, ?_, ?_⟩ <;> decide

/-- Claim C2, amended: when send is invoked with no valid credential it
surfaces the distinct session-expired message, clears the loading flag and
terminates without running the finally cleanup; but the pending-set and
registry bookkeeping has already happened before the credential check, so
after the call the RequestKey is in the PendingRequestSet and this call
token is stored in the ActiveRequestRegistry — they are not unchanged. -/
theorem C2_auth_failure_bookkeeping (cl : SendClosure) (textToSend : String)
    (tok : Nat) (s s1 : CoordState)
    (h : beginSend cl textToSend tok s = some s1) :
    (authFailSend s1).messages = s1.messages ++ [sessionExpiredMsg] ∧
    (authFailSend s1).isLoading = false ∧
    setMem (authFailSend s1).pendingRequests (requestKeyOf cl.currentSessionId) = true ∧
    mapGet (authFailSend s1).activeRequests (requestKeyOf cl.currentSessionId) = some tok := by
  obtain ⟨hp, ha, _, _⟩ := beginSend_eq_some h
  refine ⟨rfl, rfl, ?_, ?_⟩
  · show setMem s1.pendingRequests (requestKeyOf cl.currentSessionId) = true
    rw [hp]
    exact setMem_setAdd_self _ _
  · show mapGet s1.activeRequests (requestKeyOf cl.currentSessionId) = some tok
    rw [ha]
    exact mapGet_mapSet_self _ _ _

/-- Claim C2, witness: the amended statement evaluated on the concrete
auth-failing send of "hello" with token 7 from the pristine state. -/
theorem C2_witness :
    (authFailSend c2AfterBegin).messages = c2AfterBegin.messages ++ [sessionExpiredMsg] ∧
    (authFailSend c2AfterBegin).isLoading = false ∧
    setMem (authFailSend c2AfterBegin).pendingRequests "new" = true ∧
    mapGet (authFailSend c2AfterBegin).activeRequests "new" = some 7 :=
  C2_auth_failure_bookkeeping unsavedSendClosure "hello" 7 initialState
    c2AfterBegin (by decide)

/-- Claim C3, counterexample to the claim as stated: after the send of "hi"
with token 3 fails authentication and terminates, no send is outstanding
any more, yet its RequestKey "new" was never removed from the
PendingRequestSet (the auth-failure return on line 866 precedes the `try`,
so the finally removal never runs) and `pendingCount()` reports 1. -/
theorem C3_counterexample :
    beginSend unsavedSendClosure "hi" 3 initialState ≠ none ∧
    c3Final.pendingRequests = ["new"] ∧
    c3Final.pendingRequests.length = 1 := by
  refine ⟨?_, ?_, ?_⟩ <;> decide

/-- Claim C3, amended: for every send that obtains a valid credential, the
RequestKey is added to the PendingRequestSet exactly when the send begins
and is removed in the finally path of that send on every outcome, leaving
every other key untouched; but a send that fails authentication adds its
key at begin and never removes it, so `pendingCount()` counts the number of
keys marked pending, which the auth-failure path inflates permanently. -/
theorem C3_pending_accounting :
    (∀ (cl : SendClosure) (textToSend : String) (tok : Nat) (s s1 : CoordState),
        beginSend cl textToSend tok s = some s1 →
        setMem s1.pendingRequests (requestKeyOf cl.currentSessionId) = true ∧
        ∀ k, k ≠ requestKeyOf cl.currentSessionId →
          setMem s1.pendingRequests k = setMem s.pendingRequests k) ∧
    (∀ (cl : SendClosure) (s : CoordState),
        setMem (finalizeSend cl s).pendingRequests (requestKeyOf cl.currentSessionId) = false ∧
        ∀ k, k ≠ requestKeyOf cl.currentSessionId →
          setMem (finalizeSend cl s).pendingRequests k = setMem s.pendingRequests k) ∧
    (∀ (cl : SendClosure) (textToSend : String) (tok : Nat) (s s1 : CoordState),
        beginSend cl textToSend tok s = some s1 →
        setMem (authFailSend s1).pendingRequests (requestKeyOf cl.currentSessionId) = true) := by
  refine ⟨?_, ?_, ?_⟩
  · intro cl textToSend tok s s1 h
    obtain ⟨hp, _, _, _⟩ := beginSend_eq_some h
    rw [hp]
    exact ⟨setMem_setAdd_self _ _, fun k hk => setMem_setAdd_ne _ _ _ hk⟩
  · intro cl s
    obtain ⟨hp, _, _⟩ := finalizeSend_fields cl s
    rw [hp]
    exact ⟨setMem_setDelete_self _ _, fun k hk => setMem_setDelete_ne _ _ _ hk⟩
  · intro cl textToSend tok s s1 h
    obtain ⟨hp, _, _, _⟩ := beginSend_eq_some h
    show setMem s1.pendingRequests (requestKeyOf cl.currentSessionId) = true
    rw [hp]
    exact setMem_setAdd_self _ _

/-- Claim C3, witness: the amended accounting evaluated on the concrete
send of "hi" with token 3 from the pristine state. -/
theorem C3_witness :
    setMem c3AfterBegin.pendingRequests "new" = true ∧
    setMem c3AfterBegin.pendingRequests "other" = setMem initialState.pendingRequests "other" ∧
    setMem (finalizeSend unsavedSendClosure c3AfterBegin).pendingRequests "new" = false ∧
    setMem (authFailSend c3AfterBegin).pendingRequests "new" = true := by
  obtain ⟨h1, h2, h3⟩ := C3_pending_accounting
  have hb := h1 unsavedSendClosure "hi" 3 initialState c3AfterBegin (by decide)
  exact ⟨hb.1, hb.2 "other" (by decide),
    (h2 unsavedSendClosure c3AfterBegin).1,
    h3 unsavedSendClosure "hi" 3 initialState c3AfterBegin (by decide)⟩

/-- Claim C4, counterexample to the claim as stated: send A (token 1) and a
newer send B (token 2) share RequestKey "new"; after B has stored the newer
token 2 in the registry, the completion of the older send A deletes the
registry entry outright (line 1002 deletes unconditionally, without
comparing the stored token with its own), so the newer entry is not left in
place. -/
theorem C4_counterexample :
    mapGet c4AfterB.activeRequests "new" = some 2 ∧
    mapGet c4Final.activeRequests "new" = none := by
  refine ⟨?_, ?_⟩ <;> decide

/-- Claim C4, amended: in the finally path of a send the
ActiveRequestRegistry entry for the RequestKey is deleted unconditionally —
the stored token is never compared with this call token — so after any send
for a key completes the registry holds no token for that key, and an older
send completing removes the token of a newer send for the same key; entries
of other keys are untouched. -/
theorem C4_registry_cleared (cl : SendClosure) (s : CoordState) :
    mapGet (finalizeSend cl s).activeRequests (requestKeyOf cl.currentSessionId) = none ∧
    ∀ k, k ≠ requestKeyOf cl.currentSessionId →
      mapGet (finalizeSend cl s).activeRequests k = mapGet s.activeRequests k := by
  obtain ⟨_, ha, _⟩ := finalizeSend_fields cl s
  rw [ha]
  exact ⟨mapGet_mapDelete_self _ _, fun k hk => mapGet_mapDelete_ne _ _ _ hk⟩

/-- Claim C4, witness: the amended statement evaluated on the concrete
two-send scenario with RequestKey "new". -/
theorem C4_witness :
    mapGet (finalizeSend unsavedSendClosure c4AfterB).activeRequests "new" = none ∧
    mapGet (finalizeSend unsavedSendClosure c4AfterB).activeRequests "other" =
      mapGet c4AfterB.activeRequests "other" := by
  have h := C4_registry_cleared unsavedSendClosure c4AfterB
  exact ⟨h.1, h.2 "other" (by decide)⟩

/-- Claim C1, counterexample to the claim as stated, on the exact scenario
of the claim: "hello" is sent with no active session (token 7), the user
clicks new chat while the call is pending, and the backend resolves with
session id S1.  Contrary to the claim, the response is not written to
SessionCache under S1 (the cache has no S1 entry afterwards) and the
assistant message is appended to the live view, which now shows the
greeting of the new unsaved chat; the code also moves the active-session
pointer to S1 (line 943).  The routing check on line 955 reads the closure
value of `currentSessionId` captured when the send began, and its second
disjunct (both send-time values unsaved) is true here, so the append branch
runs. -/
theorem C1_counterexample :
    c1Final.messages =
        [greetingMsg, { role := "assistant", rawContent := some "hi there" }] ∧
    mapGet c1Final.sessionMessages (some "S1") = none ∧
    c1Final.currentSessionId = some "S1" := by
  refine ⟨?_, ?_, ?_⟩ <;> decide

/-- Claim C1, amended: routing of a resolved send is decided against the
session captured when the send began (the closure value, which is also the
request session id), not against the presently active session.  The
assistant message is appended to the live view whenever the send began with
no saved session, or the resolved final id equals the captured id; only a
send that began in a saved session and resolved with a different, truthy
session id is written into SessionCache under the resolved id, leaving the
live view untouched.  In the scenario of the claim the response is
therefore appended to the live view and SessionCache gets no S1 entry. -/
theorem C1_routing (cl : SendClosure) (data : SendResponse) (s : CoordState) :
    (truthyS cl.currentSessionId = false ∨
        orFalsy data.session_id cl.currentSessionId = cl.currentSessionId →
      (resolveSend cl data s).messages =
          s.messages ++ [{ role := "assistant", rawContent := some data.output }] ∧
      (resolveSend cl data s).sessionMessages = s.sessionMessages) ∧
    (truthyS cl.currentSessionId = true → truthyS data.session_id = true →
        data.session_id ≠ cl.currentSessionId →
      (resolveSend cl data s).messages = s.messages ∧
      (resolveSend cl data s).sessionMessages =
        mapSet s.sessionMessages data.session_id
          ((mapGet s.sessionMessages data.session_id).getD []
            ++ [{ role := "assistant", rawContent := some data.output }])) := by
  constructor
  · intro h
    have hcond : cl.currentSessionId = orFalsy data.session_id cl.currentSessionId ∨
        (¬ truthyS cl.currentSessionId ∧ ¬ truthyS cl.currentSessionId) := by
      rcases h with h | h
      · exact Or.inr ⟨by simp [h], by simp [h]⟩
      · exact Or.inl h.symm
    simp only [resolveSend, if_pos hcond]
    by_cases hin : truthyS data.session_id ∧ ¬ truthyS cl.currentSessionId
    · rw [if_pos hin]
      exact ⟨rfl, rfl⟩
    · rw [if_neg hin]
      exact ⟨rfl, rfl⟩
  · intro h1 h2 h3
    have hfinal : orFalsy data.session_id cl.currentSessionId = data.session_id := by
      simp [orFalsy, h2]
    have hne2 : ¬ (cl.currentSessionId = data.session_id) := fun h => h3 h.symm
    refine ⟨?_, ?_⟩ <;> simp [resolveSend, hfinal, h1, hne2]

/-- Claim C1, witness: the amended routing evaluated concretely.  A send
captured in saved session A resolves with the different session id B: the
live view is untouched and the response is appended into the SessionCache
entry of B. -/
theorem C1_witness :
    truthyS (some "A") = true ∧
    truthyS (some "B") = true ∧
    (some "B" : Option String) ≠ some "A" ∧
    (resolveSend { currentSessionId := some "A", isLoading := false }
        { session_id := some "B", output := "out" } initialState).messages =
      initialState.messages ∧
    (resolveSend { currentSessionId := some "A", isLoading := false }
        { session_id := some "B", output := "out" } initialState).sessionMessages =
      mapSet initialState.sessionMessages (some "B")
        ((mapGet initialState.sessionMessages (some "B")).getD []
          ++ [{ role := "assistant", rawContent := some "out" }]) := by
  have h := (C1_routing { currentSessionId := some "A", isLoading := false }
      { session_id := some "B", output := "out" } initialState).2
      rfl rfl (by decide)
  exact ⟨rfl, rfl, by decide, h.1, h.2⟩

/-- The write-through save touches only the SessionCache: the abort
bookkeeping fields are unchanged. -/
theorem saveOutgoing_frame (cl : ViewClosure) (s : CoordState) :
    (saveOutgoing cl s).aborted = s.aborted ∧
    (saveOutgoing cl s).isLoadingSession = s.isLoadingSession ∧
    (saveOutgoing cl s).sessionLoadAbort = s.sessionLoadAbort := by
  rw [saveOutgoing]
  split <;> exact ⟨rfl, rfl, rfl⟩

/-- When a load is in progress and holds a stored token, the abort step
fires exactly that token. -/
theorem abortPreviousLoad_aborted (s : CoordState) (tPrev : Nat)
    (h1 : s.isLoadingSession = true) (h2 : s.sessionLoadAbort = some tPrev) :
    (abortPreviousLoad s).aborted = setAdd s.aborted tPrev := by
  rw [abortPreviousLoad]
  simp [h1, h2]

/-- Starting a history load for another session while a previous load is in
flight adds the previous token to the aborted set, on every control path of
the synchronous block (both with and without the write-through save, and on
both the cached and the fetching continuation). -/
theorem loadSessionStart_aborted (cl : ViewClosure) (sessionId tk : String)
    (tFresh tPrev : Nat) (s : CoordState)
    (h1 : s.isLoadingSession = true) (h2 : s.sessionLoadAbort = some tPrev)
    (h3 : cl.currentSessionId ≠ some sessionId) :
    (loadSessionStart cl sessionId (some tk) tFresh s).1.aborted =
      setAdd s.aborted tPrev := by
  obtain ⟨ha, hl, hab⟩ := saveOutgoing_frame cl s
  have habort : (abortPreviousLoad (saveOutgoing cl s)).aborted =
      setAdd s.aborted tPrev := by
    rw [abortPreviousLoad_aborted (saveOutgoing cl s) tPrev (hl.trans h1)
      (hab.trans h2), ha]
  have hne1 : ¬ ((some tk : Option String) = none) := fun h => Option.noConfusion h
  simp only [loadSessionStart, if_neg hne1, if_neg h3]
  split
  · split
    · simpa using habort
    · simpa using habort
  · simpa using habort

/-- The continuation of an aborted history load takes the AbortError path:
it neither replaces the live view nor writes the SessionCache. -/
theorem loadSessionResolve_aborted_frame (cl : ViewClosure) (sessionId : String)
    (tok : Nat) (net : FetchHistoryResult) (s : CoordState)
    (h : setMem s.aborted tok = true) :
    (loadSessionResolve cl sessionId tok net s).messages = s.messages ∧
    (loadSessionResolve cl sessionId tok net s).sessionMessages = s.sessionMessages := by
  simp only [loadSessionResolve.eq_def, if_pos h]
  split <;> exact ⟨rfl, rfl⟩

/-- Claim C5: starting a history load for session B while the load holding
token `tPrev` is still in flight (the in-progress flag is set and `tPrev`
is the stored abort token) actively cancels the older load, regardless of
which path the new load then takes — so at most one fetch is live at any
instant; and the continuation of any load whose token has been aborted
performs no further side effects: it neither replaces the live view nor
writes the SessionCache.  Together: only the newer load can ever deliver
data to the live view, even if the older network call resolves later. -/
theorem C5_sequencer_cancellation :
    (∀ (cl : ViewClosure) (sessionId tk : String) (tFresh tPrev : Nat)
        (s : CoordState),
        s.isLoadingSession = true →
        s.sessionLoadAbort = some tPrev →
        cl.currentSessionId ≠ some sessionId →
        setMem (loadSessionStart cl sessionId (some tk) tFresh s).1.aborted tPrev = true) ∧
    (∀ (cl : ViewClosure) (sessionId : String) (tok : Nat)
        (net : FetchHistoryResult) (s : CoordState),
        setMem s.aborted tok = true →
        (loadSessionResolve cl sessionId tok net s).messages = s.messages ∧
        (loadSessionResolve cl sessionId tok net s).sessionMessages = s.sessionMessages) := by
  constructor
  · intro cl sessionId tk tFresh tPrev s h1 h2 h3
    rw [loadSessionStart_aborted cl sessionId tk tFresh tPrev s h1 h2 h3]
    exact setMem_setAdd_self _ _
  · intro cl sessionId tok net s h
    exact loadSessionResolve_aborted_frame cl sessionId tok net s h

/-- Claim C5, witness: with a load holding token 3 in flight, starting a
load of session B (fresh token 9) marks token 3 aborted; and the resolve
continuation of the aborted token-3 load, even when its network call
resolves successfully later, leaves the live view and the cache alone. -/
theorem C5_witness :
    setMem (loadSessionStart { currentSessionId := none, messages := [], pendingRequests := [] }
        "B" (some "tk") 9 c5State).1.aborted 3 = true ∧
    (loadSessionResolve { currentSessionId := none, messages := [], pendingRequests := [] }
        "A" 3 (FetchHistoryResult.ok [{ role := "user", content := "x" }])
        { c5State with aborted := [3] }).messages =
      ({ c5State with aborted := [3] } : CoordState).messages ∧
    (loadSessionResolve { currentSessionId := none, messages := [], pendingRequests := [] }
        "A" 3 (FetchHistoryResult.ok [{ role := "user", content := "x" }])
        { c5State with aborted := [3] }).sessionMessages =
      ({ c5State with aborted := [3] } : CoordState).sessionMessages := by
  obtain ⟨h1, h2⟩ := C5_sequencer_cancellation
  have ha := h1 { currentSessionId := none, messages := [], pendingRequests := [] }
      "B" "tk" 9 3 c5State rfl rfl (by decide)
  have hb := h2 { currentSessionId := none, messages := [], pendingRequests := [] }
      "A" 3 (FetchHistoryResult.ok [{ role := "user", content := "x" }])
      { c5State with aborted := [3] } (by decide)
  exact ⟨ha, hb.1, hb.2⟩

/-- Claim C6: when the requested session differs from the captured active
session and the SessionCache holds a non-empty entry for it, `loadSession`
installs the cached transcript as the live view and finishes its
synchronous block with the in-progress flag cleared and the
`servedFromCache` outcome — on this outcome no `fetchHistory` network call
is issued and the sequencer never enters its loading state (the fetch and
the fresh-token registration happen only on the `fetching` outcome). -/
theorem C6_cache_short_circuit (cl : ViewClosure) (sessionId tk : String)
    (tFresh : Nat) (s : CoordState) (cachedList : List Msg)
    (hne : cl.currentSessionId ≠ some sessionId)
    (hcache : mapGet s.sessionMessages (some sessionId) = some cachedList)
    (hnonempty : cachedList ≠ []) :
    (loadSessionStart cl sessionId (some tk) tFresh s).2 =
        LoadStartResult.servedFromCache ∧
    (loadSessionStart cl sessionId (some tk) tFresh s).1.messages = cachedList ∧
    (loadSessionStart cl sessionId (some tk) tFresh s).1.isLoadingSession = false := by
  have hlen : cachedList.length > 0 := List.length_pos.mpr hnonempty
  have hget1 : mapGet (saveOutgoing cl s).sessionMessages (some sessionId) =
      some cachedList := by
    rw [saveOutgoing]
    split
    · show mapGet (mapSet s.sessionMessages cl.currentSessionId cl.messages)
        (some sessionId) = some cachedList
      rw [mapGet_mapSet_ne _ _ _ _ hne]
      exact hcache
    · exact hcache
  have hget2 : mapGet (abortPreviousLoad (saveOutgoing cl s)).sessionMessages
      (some sessionId) = some cachedList := by
    rw [abortPreviousLoad]
    split
    · split
      · exact hget1
      · exact hget1
    · exact hget1
  have hne1 : ¬ ((some tk : Option String) = none) := fun h => Option.noConfusion h
  simp only [loadSessionStart, if_neg hne1, if_neg hne]
  rw [hget2]
  dsimp only
  rw [if_pos (And.intro hlen hne)]
  exact ⟨rfl, rfl, rfl⟩

/-- Claim C6, witness: loading session S2 (whose cached transcript is
non-empty) from an unsaved active session serves the cache and issues no
fetch. -/
theorem C6_witness :
    (loadSessionStart { currentSessionId := none, messages := [], pendingRequests := [] }
        "S2" (some "tk") 4 c6State).2 = LoadStartResult.servedFromCache ∧
    (loadSessionStart { currentSessionId := none, messages := [], pendingRequests := [] }
        "S2" (some "tk") 4 c6State).1.messages = c6Cached ∧
    (loadSessionStart { currentSessionId := none, messages := [], pendingRequests := [] }
        "S2" (some "tk") 4 c6State).1.isLoadingSession = false :=
  C6_cache_short_circuit
    { currentSessionId := none, messages := [], pendingRequests := [] }
    "S2" "tk" 4 c6State c6Cached (by decide) (by decide) (by decide)

/- Lemmas about the stable sort of the proximity ranking. -/

theorem insertByKey_perm (h : Hospital) (l : List Hospital) :
    (insertByKey h l).Perm (h :: l) := by
  induction l with
  | nil => exact List.Perm.refl _
  | cons h1 rest ih =>
    rw [insertByKey]
    split
    · exact List.Perm.refl _
    · exact (ih.cons h1).trans (List.Perm.swap h h1 rest)

theorem sortByKey_perm (l : List Hospital) : (sortByKey l).Perm l := by
  induction l with
  | nil => exact List.Perm.refl _
  | cons h rest ih =>
    rw [sortByKey]
    exact (insertByKey_perm h (sortByKey rest)).trans (ih.cons h)

theorem insertByKey_pairwise (h : Hospital) (l : List Hospital)
    (hl : l.Pairwise (fun a b => sortKey a ≤ sortKey b)) :
    (insertByKey h l).Pairwise (fun a b => sortKey a ≤ sortKey b) := by
  induction l with
  | nil => simp [insertByKey]
  | cons h1 rest ih =>
    rw [insertByKey]
    split_ifs with hle
    · refine List.Pairwise.cons (fun b hb => ?_) hl
      rcases List.mem_cons.mp hb with rfl | hb
      · exact hle
      · exact le_trans hle (List.rel_of_pairwise_cons hl hb)
    · rcases List.pairwise_cons.mp hl with ⟨hh1, hrest⟩
      refine List.Pairwise.cons (fun b hb => ?_) (ih hrest)
      rcases List.mem_cons.mp ((insertByKey_perm h rest).mem_iff.mp hb) with rfl | hb
      · exact le_of_not_le hle
      · exact hh1 b hb

theorem sortByKey_pairwise (l : List Hospital) :
    (sortByKey l).Pairwise (fun a b => sortKey a ≤ sortKey b) := by
  induction l with
  | nil => simp [sortByKey]
  | cons h rest ih =>
    rw [sortByKey]
    exact insertByKey_pairwise h (sortByKey rest) ih

theorem filterKeyEq_cons (k : ℝ) (x : Hospital) (l : List Hospital) :
    filterKeyEq k (x :: l) =
      if sortKey x = k then x :: filterKeyEq k l else filterKeyEq k l := by
  by_cases hx : sortKey x = k
  · simp [filterKeyEq, List.filter_cons, hx]
  · simp [filterKeyEq, List.filter_cons, hx]

theorem filterKeyEq_insertByKey (k : ℝ) (h : Hospital) (l : List Hospital) :
    filterKeyEq k (insertByKey h l) =
      if sortKey h = k then h :: filterKeyEq k l else filterKeyEq k l := by
  induction l with
  | nil =>
    rw [insertByKey, filterKeyEq_cons]
  | cons h1 rest ih =>
    rw [insertByKey]
    split_ifs with hle hh hh
    · rw [filterKeyEq_cons, if_pos hh]
    · rw [filterKeyEq_cons, if_neg hh]
    · have hlt : sortKey h1 < sortKey h := not_le.mp hle
      have hne : sortKey h1 ≠ k := by
        intro he
        rw [he, hh] at hlt
        exact lt_irrefl k hlt
      rw [filterKeyEq_cons, if_neg hne, ih, if_pos hh, filterKeyEq_cons, if_neg hne]
    · by_cases hne : sortKey h1 = k
      · rw [filterKeyEq_cons, if_pos hne, ih, if_neg hh, filterKeyEq_cons, if_pos hne]
      · rw [filterKeyEq_cons, if_neg hne, ih, if_neg hh, filterKeyEq_cons, if_neg hne]

/-- Ranking keeps the relative order of equal-key candidates: the stable
sort leaves every fibre of the sort key unchanged as a list. -/
theorem filterKeyEq_sortByKey (k : ℝ) (l : List Hospital) :
    filterKeyEq k (sortByKey l) = filterKeyEq k l := by
  induction l with
  | nil => rfl
  | cons h rest ih =>
    rw [sortByKey, filterKeyEq_insertByKey, ih, filterKeyEq_cons]

/- Bounds on the haversine computation. -/

theorem jsAtan2_le_pi (y x : ℝ) : jsAtan2 y x ≤ Real.pi := by
  rw [jsAtan2]
  split_ifs with h1 h2 h3 h4 h5
  · linarith [Real.arctan_lt_pi_div_two (y / x), Real.pi_pos]
  · have hyx : y / x ≤ 0 := div_nonpos_iff.mpr (Or.inl ⟨h3, h2.le⟩)
    have harc : Real.arctan (y / x) ≤ 0 := by
      have hmono := Real.arctan_strictMono.monotone hyx
      rwa [Real.arctan_zero] at hmono
    linarith
  · linarith [Real.arctan_lt_pi_div_two (y / x), Real.pi_pos]
  · linarith [Real.pi_pos]
  · linarith [Real.pi_pos]
  · linarith [Real.pi_pos]

theorem scaled_jsAtan2_lt (y x : ℝ) : 6371 * (2 * jsAtan2 y x) < 999999 := by
  have h := jsAtan2_le_pi y x
  have hpi := Real.pi_lt_d2
  linarith

/-- Any value the haversine computation can produce is far below the
sentinel 999999 (the great-circle distance on a sphere of radius 6371 is at
most 6371 times two pi under the atan2 bound). -/
theorem haversineKm_lt_sentinel (a b c d : ℝ) :
    haversineKm a b c d < 999999 := by
  rw [haversineKm]
  exact scaled_jsAtan2_lt _ _

/-- A candidate exactly at the observer has recomputed distance 0. -/
theorem haversineKm_self (a b : ℝ) : haversineKm a b a b = 0 := by
  simp [haversineKm, jsAtan2, Real.sin_zero, Real.sqrt_zero, Real.sqrt_one,
    Real.arctan_zero, zero_lt_one]

/-- Claim C7: evaluation of the ranking at the failing inputs of the
claim.  For observer (0, 0) and a candidate at latitude 0, longitude 1 —
and likewise latitude 1, longitude 0 — the truthiness guard on line 1159
(`hospital.latitude && hospital.longitude`) treats the coordinate 0 as
absent, so the haversine recomputation is skipped and the candidate leaves
`rank` unchanged with no distance at all, not with a distance of about
111.19 km.  This contradicts the comments on lines 1157 and 1172 (distance
is ALWAYS recalculated; an existing distance is kept only when coordinates
are not available), so the code, not the claim, is at fault. -/
theorem C7_zero_coordinate_not_recomputed :
    rank 0 0 [equatorCandidate] = [equatorCandidate] ∧
    equatorCandidate.distance_km = none ∧
    rank 0 0 [meridianCandidate] = [meridianCandidate] ∧
    meridianCandidate.distance_km = none := by
  refine ⟨?_, rfl, ?_, rfl⟩ <;>
    norm_num [rank, recomputeHospital, sortByKey, insertByKey,
      equatorCandidate, meridianCandidate]

/-- Claim C8: evaluation of the ranking at the failing input of the claim.
For observer (0, 0) and candidates [supplied 5 km, (lat 0, lon 1), empty],
the (lat 0, lon 1) candidate is not recomputed (latitude 0 is falsy on line
1159), so it sorts with the sentinel key and the output keeps the input
order [supplied 5 km, (lat 0, lon 1), empty] — not the claimed order with
the coordinate candidate first at about 111.19 km. -/
theorem C8_order_with_zero_latitude :
    rank 0 0 [suppliedFive, equatorCandidate, emptyCandidate] =
      [suppliedFive, equatorCandidate, emptyCandidate] := by
  norm_num [rank, recomputeHospital, sortByKey, insertByKey, sortKey,
    suppliedFive, equatorCandidate, emptyCandidate]

/-- Claim C9, counterexample to the claim as stated: a coordinate-free
candidate with caller-supplied distance 0 keeps that distance, yet the sort
key of line 1178 (`a.distance_km || 999999`) treats the falsy 0 as the
sentinel, so the output is not sorted ascending by the kept distances: the
0 km candidate is ordered after the 5 km candidate. -/
theorem C9_counterexample :
    suppliedZero.distance_km = some 0 ∧
    suppliedFive.distance_km = some 5 ∧
    rank 1 1 [suppliedZero, suppliedFive] = [suppliedFive, suppliedZero] := by
  refine ⟨rfl, rfl, ?_⟩
  norm_num [rank, recomputeHospital, sortByKey, insertByKey, sortKey,
    suppliedZero, suppliedFive]

/-- Claim C9, amended: candidates lacking a coordinate pass through the
recomputation unchanged, keeping any caller-supplied distance value in
their `distance_km` field; the output is a permutation of the recomputed
candidates, sorted ascending by the sort key — `distance_km` when present
and nonzero, the sentinel 999999 otherwise, so a caller-supplied distance
of exactly 0 sorts as the sentinel — and ties retain the input relative
order (every fibre of the sort key is preserved as a list). -/
theorem C9_sort_behaviour (latitude longitude : ℝ) (hs : List Hospital) :
    (∀ h ∈ hs, h.latitude = none ∨ h.longitude = none →
        recomputeHospital latitude longitude h = h) ∧
    (rank latitude longitude hs).Pairwise (fun a b => sortKey a ≤ sortKey b) ∧
    (rank latitude longitude hs).Perm
      (hs.map (recomputeHospital latitude longitude)) ∧
    ∀ k, filterKeyEq k (rank latitude longitude hs) =
      filterKeyEq k (hs.map (recomputeHospital latitude longitude)) := by
  refine ⟨?_, ?_, ?_, ?_⟩
  · intro h hmem hcoord
    rcases hcoord with hc | hc
    · simp [recomputeHospital, hc]
    · rcases hlat : h.latitude with _ | v <;> simp [recomputeHospital, hlat, hc]
  · rw [rank]
    exact sortByKey_pairwise _
  · rw [rank]
    exact sortByKey_perm _
  · intro k
    rw [rank, filterKeyEq_sortByKey]

/-- Claim C9, witness: the amended statement evaluated on the concrete
counterexample pair at observer (1, 1), with fibre key 5. -/
theorem C9_witness :
    recomputeHospital 1 1 suppliedZero = suppliedZero ∧
    (rank 1 1 [suppliedZero, suppliedFive]).Pairwise
      (fun a b => sortKey a ≤ sortKey b) ∧
    (rank 1 1 [suppliedZero, suppliedFive]).Perm
      ([suppliedZero, suppliedFive].map (recomputeHospital 1 1)) ∧
    filterKeyEq 5 (rank 1 1 [suppliedZero, suppliedFive]) =
      filterKeyEq 5 ([suppliedZero, suppliedFive].map (recomputeHospital 1 1)) := by
  obtain ⟨h1, h2, h3, h4⟩ := C9_sort_behaviour 1 1 [suppliedZero, suppliedFive]
  exact ⟨h1 suppliedZero (List.mem_cons_self _ _) (Or.inl rfl), h2, h3, h4 5⟩

/-- Claim C10: the sort key treats a recomputed distance of exactly 0 as
the sentinel 999999.  For any observer with truthy (nonzero) coordinates, a
candidate located exactly at the observer gets recomputed distance 0,
whose falsy value falls back to the sentinel in the comparator; a second
candidate with truthy coordinates and positive recomputed distance keeps a
key below the sentinel (every haversine value is), so the at-observer
candidate is ordered after it, not first. -/
theorem C10_zero_distance_sorts_last (lat lon lat2 lon2 : ℝ) (d0 : Option ℝ)
    (hlat : lat ≠ 0) (hlon : lon ≠ 0) (hlat2 : lat2 ≠ 0) (hlon2 : lon2 ≠ 0)
    (hpos : 0 < haversineKm lat lon lat2 lon2) :
    rank lat lon
        [{ latitude := some lat, longitude := some lon, distance_km := d0 },
         { latitude := some lat2, longitude := some lon2, distance_km := none }] =
      [{ latitude := some lat2, longitude := some lon2,
         distance_km := some (haversineKm lat lon lat2 lon2) },
       { latitude := some lat, longitude := some lon, distance_km := some 0 }] := by
  have hself : haversineKm lat lon lat lon = 0 := haversineKm_self lat lon
  have hlt : haversineKm lat lon lat2 lon2 < 999999 :=
    haversineKm_lt_sentinel lat lon lat2 lon2
  have hne0 : haversineKm lat lon lat2 lon2 ≠ 0 := ne_of_gt hpos
  have hA : sortKey ⟨some lat, some lon, some (0 : ℝ)⟩ = 999999 := by
    simp [sortKey]
  have hB : sortKey ⟨some lat2, some lon2, some (haversineKm lat lon lat2 lon2)⟩ =
      haversineKm lat lon lat2 lon2 := by
    simp [sortKey, hne0]
  rw [rank]
  simp only [List.map, recomputeHospital]
  rw [if_pos ⟨hlat, hlon⟩, if_pos ⟨hlat2, hlon2⟩, hself]
  simp only [sortByKey, insertByKey]
  rw [hA, hB, if_neg (not_le.mpr hlt)]

/-- Claim C10, witness: observer at latitude -90, longitude 100; the first
candidate sits exactly at the observer (supplied distance 55 is
overwritten by the recomputed 0), the second at latitude 90, longitude 100
(half a great circle away); the at-observer candidate is ordered last. -/
theorem C10_witness :
    rank (-90) 100
        [{ latitude := some (-90), longitude := some 100, distance_km := some 55 },
         { latitude := some 90, longitude := some 100, distance_km := none }] =
      [{ latitude := some 90, longitude := some 100,
         distance_km := some (haversineKm (-90) 100 90 100) },
       { latitude := some (-90), longitude := some 100, distance_km := some 0 }] := by
  have hpos : 0 < haversineKm (-90) 100 90 100 := by
    have e1 : ((90 : ℝ) - -90) * Real.pi / 180 / 2 = Real.pi / 2 := by ring
    have e2 : ((100 : ℝ) - 100) * Real.pi / 180 / 2 = 0 := by ring
    simp only [haversineKm, e1, e2, Real.sin_pi_div_two, Real.sin_zero]
    norm_num [jsAtan2, Real.sqrt_one, Real.sqrt_zero]
    positivity
  exact C10_zero_distance_sorts_last (-90) 100 90 100 (some 55)
    (by norm_num) (by norm_num) (by norm_num) (by norm_num) hpos

end Pran
